import Mathlib

/-!
# Youtube_API: the ingestion loop and the search handler of `main.go`

A shallow embedding of `fetchVideos` and `handleSearch`.

* The YouTube client library, the `database/sql` store, `time.Parse` and
  `encoding/json` are outside the repository.  Whatever they answer is given
  to the embedded code as an explicit argument (`World`, `dbQuery`,
  `parseRFC3339`), or modelled after their documented behaviour
  (`ilike`, `marshalStruct`).
* Pointers of the client library that may be nil are `Option`s; following a nil
  pointer is a panic.
* Side effects are recorded as a list of `Event`s, in program order.
* A Go run-time panic (nil pointer dereference, index out of range) ends the
  goroutine and with it the process; it is modelled by the absence of a next
  loop state.
-/

namespace YoutubeAPI

/-! ## Data model -/

/-- An instant in time (`time.Time`), as a count of nanoseconds. -/
abbrev Time := Int

/-- The struct `video` of `main.go`, lines 25-30. -/
structure video where
  title : String
  description : String
  publishTime : Time
  thumbnail : String
  deriving DecidableEq, Repr

/-- The type `youtube.Thumbnail`, as far as `fetchVideos` reads it. -/
structure Thumbnail where
  Url : String
  deriving DecidableEq, Repr

/-- The type `youtube.ThumbnailDetails`, as far as `fetchVideos` reads it;
`Default` is a `*Thumbnail`, `none` when nil. -/
structure ThumbnailDetails where
  Default : Option Thumbnail
  deriving DecidableEq, Repr

/-- The type `youtube.SearchResultSnippet`, as far as `fetchVideos` reads it;
`Thumbnails` is a `*ThumbnailDetails`, `none` when nil. -/
structure SearchResultSnippet where
  Title : String
  Description : String
  PublishedAt : String
  Thumbnails : Option ThumbnailDetails
  deriving DecidableEq, Repr

/-- The type `youtube.SearchResult`, as far as `fetchVideos` reads it;
`Snippet` is a `*SearchResultSnippet`, `none` when nil. -/
structure SearchResult where
  Snippet : Option SearchResultSnippet
  deriving DecidableEq, Repr

/-- The type `youtube.SearchListResponse`, as far as `fetchVideos` reads it;
`Items` is a `[]*SearchResult`, an element is `none` when nil. -/
structure SearchListResponse where
  Items : List (Option SearchResult)
  NextPageToken : String
  deriving DecidableEq, Repr

/-- A `*youtube.Service` that is not nil: the client and the key it was
created with. -/
structure Service where
  apiKey : String
  deriving DecidableEq, Repr

/-- The value of the local `searchCall`: a `*youtube.SearchListCall`, with the
service it was made from and the parameters set on it. -/
structure SearchListCall where
  service : Service
  part : List String
  q : String
  type : String
  pageToken : String
  deriving DecidableEq, Repr

/-- The method `SearchListCall.PageToken`: sets the page token of the call. -/
def SearchListCall.PageToken (c : SearchListCall) (pageToken : String) : SearchListCall :=
  { c with pageToken := pageToken }

/-- A Go `error` that is not nil, as far as the comparison of line 91 can tell
errors apart. -/
inductive Error where
  /-- The value the identifier `youtube.QuotaExceededError` of line 91 stands
  for. The package `youtube/v3` declares no such identifier and `Do()` returns no
  such value; the constructor is here for the branch of lines 92-104 to have its
  counterpart. -/
  | QuotaExceededError
  /-- A `*googleapi.Error`, which `Do()` allocates for an answer of the API with
  an error status. The answer to a key whose quota is used up is one of these,
  with the code 403 and the reason `quotaExceeded`. -/
  | googleapi (code : Nat) (reason : String)
  /-- Any other error, such as a failure of the transport. -/
  | other (message : String)
  deriving DecidableEq, Repr

/-- What `searchCall.Do()` returns: a response and no error, or no response
(a nil pointer) and an error. -/
inductive DoResult where
  | ok (searchResponse : SearchListResponse)
  | error (err : Error)
  deriving DecidableEq, Repr

/-- The first component of the pair `searchCall.Do()` returns. -/
def DoResult.searchResponse : DoResult → Option SearchListResponse
  | .ok r => some r
  | .error _ => none

/-- The second component of the pair `searchCall.Do()` returns, `none` for the
nil error. -/
def DoResult.err : DoResult → Option Error
  | .ok _ => none
  | .error e => some e

/-- What `youtube.NewService` returns: a service and no error, or no service
(a nil pointer) and an error. -/
inductive NewServiceResult where
  | ok (client : Service)
  | error
  deriving DecidableEq, Repr

/-- The first component of the pair `youtube.NewService` returns. -/
def NewServiceResult.client : NewServiceResult → Option Service
  | .ok c => some c
  | .error => none

/-- The observable actions of the program, in the order they happen. -/
inductive Event where
  /-- The call `searchCall.Do()`: an outbound search with the key of the client and the
  page token of the call. -/
  | searchDo (apiKey : String) (pageToken : String)
  /-- The call `youtube.NewService(ctx, option.WithAPIKey(key))`. -/
  | newService (apiKey : String)
  /-- The call `log.Println(err)`. -/
  | logPrintln
  /-- The call `time.Sleep(seconds * time.Second)`. -/
  | sleep (seconds : Nat)
  /-- The call `db.Exec("INSERT INTO videos ...", title, description, publish_time, thumbnail)`. -/
  | dbExec (v : video)
  /-- A run-time panic: a nil pointer dereference. -/
  | nilDereference
  /-- A run-time panic: index out of range. -/
  | indexOutOfRange
  deriving DecidableEq, Repr

/-- What the outside answers during one iteration of the loop of
`fetchVideos`. -/
structure World where
  /-- The result of `searchCall.Do()`, for the key of the client that makes the call. -/
  doResult : String → DoResult
  /-- The result of `youtube.NewService` for a key. -/
  newService : String → NewServiceResult
  /-- Whether the `db.Exec` for the item at a position of the page returns an error. -/
  execError : Nat → Bool

/-- The variables that live across iterations of the loop of `fetchVideos`:
the parameter `client` (possibly nil) and the global `currentKeyIndex`. -/
structure LoopState where
  client : Option Service
  currentKeyIndex : Nat
  deriving DecidableEq, Repr

/-! ## `fetchVideos` -/

/-- Lines 93-97: `currentKeyIndex++`, reset to 0 when it reaches
`len(apiKeys)`. -/
def rotate (len : Nat) (currentKeyIndex : Nat) : Nat :=
  let currentKeyIndex := currentKeyIndex + 1
  if currentKeyIndex ≥ len then 0 else currentKeyIndex

/-- Line 87: the search call a client makes at the top of an iteration. No
page token is set on it. -/
def newSearchCall (client : Service) : SearchListCall :=
  { service := client
    part := ["id,snippet"]
    q := "football in:title OR football in:description"
    type := "video"
    pageToken := "" }

/-- The pointers lines 114-116 follow from an item: `item.Snippet` and
`item.Snippet.Thumbnails.Default`. The result is `none` when `item`, `item.Snippet`,
`item.Snippet.Thumbnails` or `item.Snippet.Thumbnails.Default` is nil: the panic of
a nil pointer dereference. -/
def snippetAndThumbnail (item : Option SearchResult) :
    Option (SearchResultSnippet × Thumbnail) :=
  match item with
  | none => none
  | some item =>
    match item.Snippet with
    | none => none
    | some snippet =>
      match snippet.Thumbnails with
      | none => none
      | some thumbnails =>
        match thumbnails.Default with
        | none => none
        | some thumbnail => some (snippet, thumbnail)

/-- Lines 112-131, from the position `pos` on: the loop over the items of a
page. `parseRFC3339 s` is `time.Parse(time.RFC3339, s)`, `none` when it returns an
error. The result is the events of the loop and whether it ran to its end:
`false` when it panics on a nil pointer at lines 114-116. -/
def insertItems (parseRFC3339 : String → Option Time) (execError : Nat → Bool) :
    Nat → List (Option SearchResult) → List Event × Bool
  | _, [] => ([], true)
  | pos, item :: rest =>
    match snippetAndThumbnail item with
    | none => ([Event.nilDereference], false)
    | some (snippet, thumbnail) =>
      let v : video :=
        { title := snippet.Title
          description := snippet.Description
          publishTime := 0
          thumbnail := thumbnail.Url }
      match parseRFC3339 snippet.PublishedAt with
      | none =>
        -- log.Println(err); continue
        let r := insertItems parseRFC3339 execError (pos + 1) rest
        (Event.logPrintln :: r.1, r.2)
      | some pubTime =>
        let v := { v with publishTime := pubTime }
        let logged := if execError pos then [Event.logPrintln] else []
        let r := insertItems parseRFC3339 execError (pos + 1) rest
        (Event.dbExec v :: (logged ++ r.1), r.2)

/-- Lines 111-139: the part of an iteration after the error handling, reached
with whatever `searchResponse` holds. -/
def processResponse (parseRFC3339 : String → Option Time) (w : World)
    (searchCall : SearchListCall) (searchResponse : Option SearchListResponse)
    (s : LoopState) : List Event × Option LoopState :=
  match searchResponse with
  | none =>
    -- `searchResponse.Items` on a nil `searchResponse`
    ([Event.nilDereference], none)
  | some resp =>
    let inserts := insertItems parseRFC3339 w.execError 0 resp.Items
    match inserts.2 with
    | false => (inserts.1, none)
    | true =>
      if resp.NextPageToken ≠ "" then
        -- the assignment is to the local `searchCall`, which ends with the iteration
        let _searchCall := searchCall.PageToken resp.NextPageToken
        (inserts.1, some s)
      else
        (inserts.1 ++ [Event.sleep 10], some s)

/-- Lines 86-139: one iteration of the loop of `fetchVideos`. The result is the
events of the iteration and the state the next iteration starts from, `none`
when the iteration panics. -/
def fetchVideosIteration (apiKeys : List String) (parseRFC3339 : String → Option Time)
    (w : World) (s : LoopState) : List Event × Option LoopState :=
  match s.client with
  | none =>
    -- `client.Search` on a nil `client`
    ([Event.nilDereference], none)
  | some client =>
    let searchCall := newSearchCall client
    let call := [Event.searchDo searchCall.service.apiKey searchCall.pageToken]
    let result := w.doResult searchCall.service.apiKey
    let searchResponse := result.searchResponse
    match result.err with
    | none =>
      let r := processResponse parseRFC3339 w searchCall searchResponse s
      (call ++ r.1, r.2)
    | some err =>
      if err = Error.QuotaExceededError then
        let currentKeyIndex := rotate apiKeys.length s.currentKeyIndex
        match apiKeys.get? currentKeyIndex with
        | none => (call ++ [Event.indexOutOfRange], none)
        | some key =>
          let created := w.newService key
          let s := { client := created.client, currentKeyIndex := currentKeyIndex : LoopState }
          match created with
          | .error =>
            (call ++ [Event.newService key, Event.logPrintln, Event.sleep 10], some s)
          | .ok _ =>
            let r := processResponse parseRFC3339 w searchCall searchResponse s
            (call ++ Event.newService key :: r.1, r.2)
      else
        (call ++ [Event.logPrintln, Event.sleep 10], some s)

/-- The loop `for { ... }` of `fetchVideos`, run for as many iterations as
there are worlds, or until a panic. -/
def fetchVideos (apiKeys : List String) (parseRFC3339 : String → Option Time) :
    List World → LoopState → List Event × Option LoopState
  | [], s => ([], some s)
  | w :: ws, s =>
    match fetchVideosIteration apiKeys parseRFC3339 w s with
    | (events, none) => (events, none)
    | (events, some s') =>
      let r := fetchVideos apiKeys parseRFC3339 ws s'
      (events ++ r.1, r.2)

/-- The pool of `main.go`, line 81. -/
def apiKeys : List String := ["API_KEY1", "API_KEY2", "API_KEY3"]

/-! ## `handleSearch` -/

/-- The type `url.Values`: for a key, the values given to it. -/
abbrev Values := List (String × List String)

/-- The method `url.Values.Get`: the first value of the key, the empty string
when the key has none. -/
def Get (v : Values) (key : String) : String :=
  match v.lookup key with
  | none => ""
  | some vs => vs.headD ""

/-- The request, as far as `handleSearch` reads it: `r.URL.Query()`. -/
structure Request where
  query : Values
  deriving DecidableEq, Repr

/-- The three statements `handleSearch` sends to the store, with their
arguments. -/
inductive Query where
  /-- The statement `... WHERE title ILIKE $1 AND description ILIKE $2 ORDER BY publish_time DESC`. -/
  | titleAndDescription (arg1 arg2 : String)
  /-- The statement `... WHERE title ILIKE $1 ORDER BY publish_time DESC`. -/
  | titleOnly (arg1 : String)
  /-- The statement `... WHERE description ILIKE $1 ORDER BY publish_time DESC`. -/
  | descriptionOnly (arg1 : String)
  deriving DecidableEq, Repr

/-- What `rows.Scan` returns for a row: the values of the row and no error, or
an error. -/
inductive ScanResult where
  | ok (v : video)
  | error
  deriving DecidableEq, Repr

/-- A `*sql.Rows`: a scan result for every time `rows.Next()` returns true,
and whether `rows.Next()` returned false at last because of an error (then
`rows.Err()` is not nil) and not because the rows ended. -/
structure Rows where
  scans : List ScanResult
  err : Bool
  deriving DecidableEq, Repr

/-- What `db.Query` returns: rows and no error, or an error. -/
inductive QueryResult where
  | rows (rows : Rows)
  | error
  deriving DecidableEq, Repr

/-- A JSON value. -/
inductive JSON where
  | null
  | string (s : String)
  | array (elements : List JSON)
  | object (members : List (String × JSON))
  deriving Repr

/-- The body of a response: a text, or the JSON text of a value followed by a
newline, as `json.Encoder.Encode` writes it. -/
inductive Body where
  | text (s : String)
  | json (j : JSON)
  deriving Repr

/-- What `handleSearch` writes to the `http.ResponseWriter`. -/
structure Response where
  status : Nat
  contentType : String
  body : Body
  deriving Repr

/-- The function `http.StatusText`, for the codes `handleSearch` uses. -/
def StatusText (code : Nat) : String :=
  if code = 400 then "Bad Request"
  else if code = 500 then "Internal Server Error"
  else ""

/-- The function `http.Error`: a plain text reply with the code. -/
def httpError (error : String) (code : Nat) : Response :=
  { status := code
    contentType := "text/plain; charset=utf-8"
    body := .text (error ++ "\n") }

/-- A field of a Go struct value, as `encoding/json` sees it by reflection. -/
structure StructField where
  name : String
  value : JSON

/-- Whether a Go identifier is exported: it starts with an upper case letter
(the names of the fields here are ASCII). -/
def isExported (name : String) : Bool :=
  match name.data with
  | [] => false
  | c :: _ => c.isUpper

/-- How `encoding/json` encodes a struct that has no field tags: an object with
a member for each exported field; the other fields are left out. -/
def marshalStruct (fields : List StructField) : JSON :=
  .object ((fields.filter fun f => isExported f.name).map fun f => (f.name, f.value))

/-- The fields of the struct `video`, lines 25-30, in declaration order;
`formatRFC3339` is how `time.Time` marshals itself. -/
def video.fields (formatRFC3339 : Time → String) (v : video) : List StructField :=
  [ ⟨"title", .string v.title⟩,
    ⟨"description", .string v.description⟩,
    ⟨"publishTime", .string (formatRFC3339 v.publishTime)⟩,
    ⟨"thumbnail", .string v.thumbnail⟩ ]

/-- How `encoding/json` encodes the slice `videos` of line 171: `null` for the
nil slice, which `var videos []video` is as long as nothing was appended to it,
and else an array of the encoded elements. -/
def marshalVideos (formatRFC3339 : Time → String) : List video → JSON
  | [] => .null
  | v :: vs => .array ((v :: vs).map fun x => marshalStruct (x.fields formatRFC3339))

/-- Lines 172-180: the loop over the rows, from the slice `videos` built so
far; `none` when a `rows.Scan` returns an error. The loop ends when
`rows.Next()` returns false, whatever the reason. -/
def scanRows : List ScanResult → List video → Option (List video)
  | [], videos => some videos
  | .error :: _, _ => none
  | .ok v :: rest, videos => scanRows rest (videos ++ [v])

/-- Lines 143-186: `handleSearch`. The result is the response and the queries
sent to the store. -/
def handleSearch (formatRFC3339 : Time → String) (dbQuery : Query → QueryResult)
    (r : Request) : Response × List Query :=
  let title := Get r.query "title"
  let description := Get r.query "description"
  if title = "" ∧ description = "" then
    (httpError (StatusText 400) 400, [])
  else
    let q : Query :=
      if title ≠ "" ∧ description ≠ "" then
        .titleAndDescription ("%" ++ title ++ "%") ("%" ++ description ++ "%")
      else if title ≠ "" then
        .titleOnly ("%" ++ title ++ "%")
      else
        .descriptionOnly ("%" ++ description ++ "%")
    match dbQuery q with
    | .error => (httpError (StatusText 500) 500, [q])
    | .rows rows =>
      match scanRows rows.scans [] with
      | none => (httpError (StatusText 500) 500, [q])
      | some videos =>
        ({ status := 200
           contentType := "application/json"
           body := .json (marshalVideos formatRFC3339 videos) }, [q])

/-! ## The store: how PostgreSQL selects the rows of a query -/

/-- How `ILIKE` compares two characters: after folding their case. -/
def foldCase (c : Char) : Char := c.toLower

/-- The elements of a `LIKE` pattern. -/
inductive Tok where
  /-- The character `%`: any sequence of characters. -/
  | anySequence
  /-- The character `_`: any one character. -/
  | anyOne
  /-- A character that stands for itself. -/
  | literal (c : Char)
  deriving DecidableEq, Repr

/-- Reads a `LIKE` pattern with the default escape character, the backslash:
the character after a backslash stands for itself. `escaped` says that the
character before was the backslash. (The server rejects a pattern that ends in
a lone backslash; here it reads as nothing. The patterns of `handleSearch` end
in `%`.) -/
def likeTokens : Bool → List Char → List Tok
  | _, [] => []
  | true, c :: rest => .literal c :: likeTokens false rest
  | false, c :: rest =>
    if c = '\\' then likeTokens true rest
    else if c = '%' then .anySequence :: likeTokens false rest
    else if c = '_' then .anyOne :: likeTokens false rest
    else .literal c :: likeTokens false rest

/-- Whether a text matches a read pattern as a whole, without regard to case. -/
def matchTokens : List Tok → List Char → Bool
  | [], text => text.isEmpty
  | .anySequence :: p, text => text.tails.any fun rest => matchTokens p rest
  | .anyOne :: _, [] => false
  | .anyOne :: p, _ :: rest => matchTokens p rest
  | .literal _ :: _, [] => false
  | .literal c :: p, d :: rest => foldCase c == foldCase d && matchTokens p rest

/-- The operator `text ILIKE pattern` of PostgreSQL. -/
def ilike (text pattern : String) : Bool :=
  matchTokens (likeTokens false pattern.data) text.data

/-- The `WHERE` clause of a statement, on a row. -/
def whereClause : Query → video → Bool
  | .titleAndDescription arg1 arg2, v => ilike v.title arg1 && ilike v.description arg2
  | .titleOnly arg1, v => ilike v.title arg1
  | .descriptionOnly arg1, v => ilike v.description arg1

/-- The rows a statement selects from the table `videos`: those the `WHERE`
clause holds for, `ORDER BY publish_time DESC`. -/
def selectRows (table : List video) (q : Query) : List video :=
  (table.filter (whereClause q)).insertionSort fun a b => a.publishTime ≥ b.publishTime

/-- A `db.Query` that answers from a table, without failure. -/
def queryTable (table : List video) (q : Query) : QueryResult :=
  .rows { scans := (selectRows table q).map ScanResult.ok, err := false }

/-! ## The words of the specification -/

/-- Case-insensitive substring containment: the parameter, case folded, is a
run of consecutive characters of the text, case folded. -/
def containsIgnoreCase (param text : String) : Prop :=
  param.data.map foldCase <:+: text.data.map foldCase

instance (param text : String) : Decidable (containsIgnoreCase param text) :=
  inferInstanceAs (Decidable (param.data.map foldCase <:+: text.data.map foldCase))

/-- The rows the specification wants for the parameters `title` and
`description`: a supplied parameter must be contained in its field. -/
def wanted (title description : String) (v : video) : Bool :=
  decide ((title ≠ "" → containsIgnoreCase title v.title) ∧
    (description ≠ "" → containsIgnoreCase description v.description))

/-- The characters with a meaning of their own in a `LIKE` pattern. -/
def isLikeSpecial (c : Char) : Bool :=
  c = '%' || c = '_' || c = '\\'

/-- The row the specification wants inserted for an item: its title, its
description, its parsed time and its thumbnail; none when the time does not
parse. -/
def expectedInsert (parseRFC3339 : String → Option Time) (item : Option SearchResult) :
    Option video :=
  match snippetAndThumbnail item with
  | none => none
  | some (snippet, thumbnail) =>
    (parseRFC3339 snippet.PublishedAt).map fun pubTime =>
      { title := snippet.Title
        description := snippet.Description
        publishTime := pubTime
        thumbnail := thumbnail.Url }

/-- An item is populated when the item, its snippet, the thumbnails of the
snippet and the default thumbnail are all there (no pointer is nil). -/
def populated (item : Option SearchResult) : Bool :=
  match item with
  | none => false
  | some item =>
    match item.Snippet with
    | none => false
    | some snippet =>
      match snippet.Thumbnails with
      | none => false
      | some thumbnails => thumbnails.Default.isSome

/-- An item has an unparsable timestamp when it has a snippet and the
`PublishedAt` of the snippet fails RFC3339 parsing. -/
def unparsable (parseRFC3339 : String → Option Time) (item : Option SearchResult) : Bool :=
  match item with
  | none => false
  | some item =>
    match item.Snippet with
    | none => false
    | some snippet => (parseRFC3339 snippet.PublishedAt).isNone

/-! ## Observations on a trace, and concrete inputs -/

/-- The rows of the inserts of a trace, in order. -/
def insertsOf (events : List Event) : List video :=
  events.filterMap fun e =>
    match e with
    | .dbExec v => some v
    | _ => none

/-- A world in which the search succeeds with a page without items, and a
given next page token. -/
def pageWorld (nextPageToken : String) : World :=
  { doResult := fun _ => .ok { Items := [], NextPageToken := nextPageToken }
    newService := fun key => .ok ⟨key⟩
    execError := fun _ => false }

/-- A world in which the search succeeds with a last page of the given items
and every insert succeeds. -/
def itemsWorld (items : List (Option SearchResult)) : World :=
  { doResult := fun _ => .ok { Items := items, NextPageToken := "" }
    newService := fun key => .ok ⟨key⟩
    execError := fun _ => false }

/-- A world in which the quota of every key is used up: whatever the key of
the call, the API answers with the status 403 and the reason `quotaExceeded`,
which `Do()` returns as a `*googleapi.Error`. A client can be created for every
key. -/
def quotaAnswerWorld : World :=
  { doResult := fun _ => .error (.googleapi 403 "quotaExceeded")
    newService := fun key => .ok ⟨key⟩
    execError := fun _ => false }

/-- An item with a snippet and a default thumbnail. -/
def fullItem (publishedAt : String) : Option SearchResult :=
  some ⟨some ⟨"Goal of the week", "football", publishedAt,
    some ⟨some ⟨"https://i.ytimg.com/vi/x/default.jpg"⟩⟩⟩⟩

/-- An item whose snippet has no thumbnails (`Thumbnails` is nil). -/
def itemWithoutThumbnails : Option SearchResult :=
  some ⟨some ⟨"Goal of the week", "football", "2023-05-01T10:00:00Z", none⟩⟩

/-- A stand-in for `time.Parse(time.RFC3339, s)` on the strings of the
examples: `2023-05-01T10:00:00Z` parses, every other string does not. -/
def parseExample (s : String) : Option Time :=
  if s = "2023-05-01T10:00:00Z" then some 1682935200000000000 else none

/-- A request `GET /videos?title=...` without a description parameter. -/
def titleRequest (title : String) : Request :=
  { query := [("title", [title])] }

/-- A stored row with the title `abc`. -/
def abcVideo : video :=
  { title := "abc", description := "goal", publishTime := 1700000000, thumbnail := "t.jpg" }

/-- A stored row with the title `Football Today`. -/
def footballVideo : video :=
  { title := "Football Today", description := "news", publishTime := 1700000500,
    thumbnail := "f.jpg" }

/-- The state `fetchVideos` starts in when `main` made the client with the
first key of the pool. -/
def startState : LoopState :=
  { client := some ⟨"API_KEY1"⟩, currentKeyIndex := 0 }

end YoutubeAPI

/-! ## Lemmas -/

namespace YoutubeAPI

/-- Inside the pool, a rotation step is the successor modulo the length. -/
theorem rotate_eq_mod (len i : Nat) (h : i < len) : rotate len i = (i + 1) % len := by
  unfold rotate
  by_cases hlen : i + 1 ≥ len
  · have heq : i + 1 = len := by omega
    simp [hlen, heq]
  · have hlt : i + 1 < len := by omega
    simp [hlen, Nat.mod_eq_of_lt hlt]

/-- Repeated rotation steps add modulo the length. -/
theorem rotate_iterate (len : Nat) (hlen : 0 < len) (k i : Nat) :
    (rotate len)^[k] (i % len) = (i + k) % len := by
  induction k with
  | zero => simp
  | succ k ih =>
    rw [Function.iterate_succ_apply', ih, rotate_eq_mod len _ (Nat.mod_lt _ hlen)]
    rw [Nat.mod_add_mod, Nat.add_assoc]

/-- The inserts of two traces in a row. -/
theorem insertsOf_append (xs ys : List Event) :
    insertsOf (xs ++ ys) = insertsOf xs ++ insertsOf ys := by
  simp [insertsOf, List.filterMap_append]

/-- A populated item has a snippet and a default thumbnail to follow the pointers
to, and its timestamp is the one of that snippet. -/
theorem snippetAndThumbnail_of_populated (item : Option SearchResult)
    (h : populated item = true) :
    ∃ snippet thumbnail, snippetAndThumbnail item = some (snippet, thumbnail) ∧
      ∀ parseRFC3339 : String → Option Time,
        unparsable parseRFC3339 item = (parseRFC3339 snippet.PublishedAt).isNone := by
  cases item with
  | none => simp [populated] at h
  | some it =>
    cases hs : it.Snippet with
    | none => simp [populated, hs] at h
    | some snippet =>
      cases ht : snippet.Thumbnails with
      | none => simp [populated, hs, ht] at h
      | some thumbnails =>
        cases hd : thumbnails.Default with
        | none => simp [populated, hs, ht, hd] at h
        | some thumbnail =>
          exact ⟨snippet, thumbnail, by simp [snippetAndThumbnail, hs, ht, hd],
            fun _ => by simp [unparsable, hs]⟩

/-- On populated items the item loop runs to its end, does nothing but log and
insert, and its inserts are the rows of the items that parse, in order, whatever
inserts fail. -/
theorem insertItems_of_populated (parseRFC3339 : String → Option Time)
    (execError : Nat → Bool) (pos : Nat) (items : List (Option SearchResult))
    (hpop : ∀ item ∈ items, populated item = true) :
    (insertItems parseRFC3339 execError pos items).2 = true ∧
      (∀ e ∈ (insertItems parseRFC3339 execError pos items).1,
        e = Event.logPrintln ∨ ∃ v, e = Event.dbExec v) ∧
      insertsOf (insertItems parseRFC3339 execError pos items).1 =
        items.filterMap (expectedInsert parseRFC3339) := by
  induction items generalizing pos with
  | nil => simp [insertItems, insertsOf]
  | cons item rest ih =>
    obtain ⟨snippet, thumbnail, hst, _⟩ :=
      snippetAndThumbnail_of_populated item (hpop item (List.mem_cons_self _ _))
    obtain ⟨h2, hev, hins⟩ := ih (pos + 1) fun x hx => hpop x (List.mem_cons_of_mem _ hx)
    simp only [insertsOf] at hins
    cases hp : parseRFC3339 snippet.PublishedAt with
    | none =>
      refine ⟨by simp [insertItems, hst, hp, h2], ?_, ?_⟩
      · intro e he
        simp only [insertItems, hst, hp, List.mem_cons] at he
        rcases he with he | he
        · exact Or.inl he
        · exact hev e he
      · simp [insertItems, hst, hp, insertsOf, List.filterMap_cons, hins, expectedInsert]
    | some t =>
      refine ⟨by simp [insertItems, hst, hp, h2], ?_, ?_⟩
      · intro e he
        simp only [insertItems, hst, hp, List.mem_cons, List.mem_append] at he
        rcases he with he | he | he
        · exact Or.inr ⟨_, he⟩
        · cases hx : execError pos <;> simp [hx] at he
          exact Or.inl he
        · exact hev e he
      · cases hx : execError pos <;>
          simp [insertItems, hst, hp, hx, insertsOf, List.filterMap_cons, hins, expectedInsert]

/-- Of populated items, those that parse are all but those that do not. -/
theorem length_filterMap_expectedInsert (parseRFC3339 : String → Option Time)
    (items : List (Option SearchResult)) (hpop : ∀ item ∈ items, populated item = true) :
    (items.filterMap (expectedInsert parseRFC3339)).length =
      items.length - items.countP (unparsable parseRFC3339) := by
  induction items with
  | nil => simp
  | cons item rest ih =>
    obtain ⟨snippet, thumbnail, hst, hun⟩ :=
      snippetAndThumbnail_of_populated item (hpop item (List.mem_cons_self _ _))
    have ih2 := ih fun x hx => hpop x (List.mem_cons_of_mem _ hx)
    have hle := List.countP_le_length (unparsable parseRFC3339) (l := rest)
    cases hp : parseRFC3339 snippet.PublishedAt with
    | none =>
      simp [List.filterMap_cons, expectedInsert, hst, hp, List.countP_cons, hun] at ih2 ⊢
      omega
    | some t =>
      simp [List.filterMap_cons, expectedInsert, hst, hp, List.countP_cons, hun] at ih2 ⊢
      omega

end YoutubeAPI

/-! ## The claims on `fetchVideos` -/

namespace YoutubeAPI

/-- C1 (the code departs from it): after a successful page whose `NextPageToken` is
`"CAUQAA"`, the next outbound search call follows without a sleep in between,
but it is made with the empty page token and not with `"CAUQAA"`. -/
theorem fetchVideos_next_page_token_dropped (parseRFC3339 : String → Option Time) :
    fetchVideos apiKeys parseRFC3339 [pageWorld "CAUQAA", pageWorld "CAUQAA"] startState =
      ([Event.searchDo "API_KEY1" "", Event.searchDo "API_KEY1" ""], some startState) := by
  rfl

/-- C2 (the code departs from it): when the search call made with the credential at
position 0 gets the quota answer of the API, the loop logs, sleeps 10 seconds and
makes the next outbound search call with the same credential `apiKeys[0]`, not
with `apiKeys[1]`; no client is created in between. -/
theorem fetchVideos_quota_answer_same_key (parseRFC3339 : String → Option Time) :
    fetchVideos apiKeys parseRFC3339 [quotaAnswerWorld, pageWorld ""] startState =
      ([Event.searchDo "API_KEY1" "", Event.logPrintln, Event.sleep 10,
        Event.searchDo "API_KEY1" "", Event.sleep 10], some startState) := by
  rfl

/-- C4, as stated, fails: for a successful response with one item whose time
parses (N = 1, M = 0) but whose snippet has no thumbnails, the iteration issues
no insert and panics. -/
theorem fetchVideosIteration_item_without_thumbnails :
    insertsOf (fetchVideosIteration apiKeys parseExample
        (itemsWorld [itemWithoutThumbnails]) startState).1 = [] ∧
      [itemWithoutThumbnails].length -
        [itemWithoutThumbnails].countP (unparsable parseExample) = 1 ∧
      (fetchVideosIteration apiKeys parseExample
        (itemsWorld [itemWithoutThumbnails]) startState).2 = none := by
  decide

/-- C4, amended: for a successful search response whose items are all populated
(item, snippet, thumbnails and default thumbnail are there), with N items of
which M have a `PublishedAt` that does not parse, the iteration issues exactly
N-M inserts: one for each item that parses, in the order of the response, with
the title, the description, the parsed time and the thumbnail of the item. This
whatever inserts fail, and the iteration ends without a panic. -/
theorem fetchVideosIteration_inserts (keys : List String)
    (parseRFC3339 : String → Option Time) (newService : String → NewServiceResult)
    (execError : Nat → Bool) (resp : SearchListResponse) (c : Service) (i : Nat)
    (hpop : ∀ item ∈ resp.Items, populated item = true) :
    insertsOf (fetchVideosIteration keys parseRFC3339
        { doResult := fun _ => .ok resp, newService := newService, execError := execError }
        ⟨some c, i⟩).1 =
      resp.Items.filterMap (expectedInsert parseRFC3339) ∧
    (insertsOf (fetchVideosIteration keys parseRFC3339
        { doResult := fun _ => .ok resp, newService := newService, execError := execError }
        ⟨some c, i⟩).1).length =
      resp.Items.length - resp.Items.countP (unparsable parseRFC3339) ∧
    (fetchVideosIteration keys parseRFC3339
        { doResult := fun _ => .ok resp, newService := newService, execError := execError }
        ⟨some c, i⟩).2 = some ⟨some c, i⟩ := by
  obtain ⟨h2, _, hins⟩ := insertItems_of_populated parseRFC3339 execError 0 resp.Items hpop
  have hcall : ∀ a b, insertsOf [Event.searchDo a b] = [] := fun _ _ => rfl
  have hsleep : insertsOf [Event.sleep 10] = [] := rfl
  have hev : insertsOf (fetchVideosIteration keys parseRFC3339
        { doResult := fun _ => .ok resp, newService := newService, execError := execError }
        ⟨some c, i⟩).1 =
      resp.Items.filterMap (expectedInsert parseRFC3339) := by
    by_cases ht : resp.NextPageToken = "" <;>
      simp only [fetchVideosIteration, processResponse, DoResult.searchResponse, DoResult.err,
        h2, ht, insertsOf_append, hins, hcall, hsleep, ne_eq, not_true_eq_false,
        not_false_eq_true, if_true, if_false, List.nil_append, List.append_nil]
  refine ⟨hev, ?_, ?_⟩
  · rw [hev]
    exact length_filterMap_expectedInsert parseRFC3339 resp.Items hpop
  · by_cases ht : resp.NextPageToken = "" <;>
      simp [fetchVideosIteration, processResponse, DoResult.searchResponse, DoResult.err,
        h2, ht]

/-- Witness for C4, amended: a page of three populated items, the second with a
time that does not parse. -/
theorem fetchVideosIteration_inserts_witness :
    (∀ item ∈ ({ Items := [fullItem "2023-05-01T10:00:00Z", fullItem "yesterday",
          fullItem "2023-05-01T10:00:00Z"], NextPageToken := "" } : SearchListResponse).Items,
        populated item = true) ∧
    (insertsOf (fetchVideosIteration apiKeys parseExample
        { doResult := fun _ => .ok { Items := [fullItem "2023-05-01T10:00:00Z",
            fullItem "yesterday", fullItem "2023-05-01T10:00:00Z"], NextPageToken := "" },
          newService := fun _ => .error, execError := fun _ => true }
        ⟨some ⟨"API_KEY1"⟩, 0⟩).1 =
      ({ Items := [fullItem "2023-05-01T10:00:00Z", fullItem "yesterday",
          fullItem "2023-05-01T10:00:00Z"], NextPageToken := "" } :
        SearchListResponse).Items.filterMap (expectedInsert parseExample) ∧
    (insertsOf (fetchVideosIteration apiKeys parseExample
        { doResult := fun _ => .ok { Items := [fullItem "2023-05-01T10:00:00Z",
            fullItem "yesterday", fullItem "2023-05-01T10:00:00Z"], NextPageToken := "" },
          newService := fun _ => .error, execError := fun _ => true }
        ⟨some ⟨"API_KEY1"⟩, 0⟩).1).length =
      ({ Items := [fullItem "2023-05-01T10:00:00Z", fullItem "yesterday",
          fullItem "2023-05-01T10:00:00Z"], NextPageToken := "" } :
        SearchListResponse).Items.length -
        ({ Items := [fullItem "2023-05-01T10:00:00Z", fullItem "yesterday",
          fullItem "2023-05-01T10:00:00Z"], NextPageToken := "" } :
        SearchListResponse).Items.countP (unparsable parseExample) ∧
    (fetchVideosIteration apiKeys parseExample
        { doResult := fun _ => .ok { Items := [fullItem "2023-05-01T10:00:00Z",
            fullItem "yesterday", fullItem "2023-05-01T10:00:00Z"], NextPageToken := "" },
          newService := fun _ => .error, execError := fun _ => true }
        ⟨some ⟨"API_KEY1"⟩, 0⟩).2 = some ⟨some ⟨"API_KEY1"⟩, 0⟩) :=
  ⟨by decide,
    fetchVideosIteration_inserts apiKeys parseExample (fun _ => .error) (fun _ => true)
      { Items := [fullItem "2023-05-01T10:00:00Z", fullItem "yesterday",
          fullItem "2023-05-01T10:00:00Z"], NextPageToken := "" }
      ⟨"API_KEY1"⟩ 0 (by decide)⟩

/-- C5, as stated, fails: a successful search call whose page has a populated
item and then an item without thumbnails ends the iteration in a panic after the
first insert, with no next iteration. -/
theorem fetchVideosIteration_nil_thumbnails_panics :
    fetchVideosIteration apiKeys parseExample
        (itemsWorld [fullItem "2023-05-01T10:00:00Z", itemWithoutThumbnails]) startState =
      ([Event.searchDo "API_KEY1" "",
        Event.dbExec
          { title := "Goal of the week", description := "football",
            publishTime := 1682935200000000000,
            thumbnail := "https://i.ytimg.com/vi/x/default.jpg" },
        Event.nilDereference], none) := by
  decide

/-- C5, amended: for a search call that succeeds with a page of populated items, or
that fails with an error that does not compare equal to
`youtube.QuotaExceededError`, the iteration is defined and does not panic: it
ends in the state it started from, so with the same client, it creates no
client, and after an error it is the retry path: the log and the 10-second sleep
before the next search. -/
theorem fetchVideosIteration_no_panic (keys : List String)
    (parseRFC3339 : String → Option Time) (w : World) (c : Service) (i : Nat)
    (h : (∃ resp, w.doResult c.apiKey = .ok resp ∧ ∀ item ∈ resp.Items, populated item = true) ∨
      (∃ err, w.doResult c.apiKey = .error err ∧ err ≠ Error.QuotaExceededError)) :
    (fetchVideosIteration keys parseRFC3339 w ⟨some c, i⟩).2 = some ⟨some c, i⟩ ∧
      Event.nilDereference ∉ (fetchVideosIteration keys parseRFC3339 w ⟨some c, i⟩).1 ∧
      Event.indexOutOfRange ∉ (fetchVideosIteration keys parseRFC3339 w ⟨some c, i⟩).1 ∧
      (∀ key, Event.newService key ∉ (fetchVideosIteration keys parseRFC3339 w ⟨some c, i⟩).1) ∧
      (∀ err, w.doResult c.apiKey = .error err →
        (fetchVideosIteration keys parseRFC3339 w ⟨some c, i⟩).1 =
          [Event.searchDo c.apiKey "", Event.logPrintln, Event.sleep 10]) := by
  rcases h with ⟨resp, hr, hpop⟩ | ⟨err, hr, hne⟩
  · obtain ⟨h2, hev, _⟩ := insertItems_of_populated parseRFC3339 w.execError 0 resp.Items hpop
    have hnot : ∀ e, (e ≠ Event.logPrintln ∧ ∀ v, e ≠ Event.dbExec v) →
        e ∉ (insertItems parseRFC3339 w.execError 0 resp.Items).1 := by
      intro e he hmem
      rcases hev e hmem with h1 | ⟨v, h1⟩
      · exact he.1 h1
      · exact he.2 v h1
    have hnil := hnot Event.nilDereference ⟨by simp, by simp⟩
    have hidx := hnot Event.indexOutOfRange ⟨by simp, by simp⟩
    have hnew := fun key => hnot (Event.newService key) ⟨by simp, by simp⟩
    by_cases ht : resp.NextPageToken = "" <;>
      simp [fetchVideosIteration, newSearchCall, processResponse, DoResult.searchResponse,
        DoResult.err, hr, h2, ht, hnil, hidx, hnew]
  · simp [fetchVideosIteration, newSearchCall, DoResult.err, hr, hne]

/-- Witness for C5, amended: a `*googleapi.Error` with the code 403, at the
start of the loop. -/
theorem fetchVideosIteration_no_panic_witness :
    ((∃ resp, quotaAnswerWorld.doResult (⟨"API_KEY1"⟩ : Service).apiKey = .ok resp ∧
          ∀ item ∈ resp.Items, populated item = true) ∨
      (∃ err, quotaAnswerWorld.doResult (⟨"API_KEY1"⟩ : Service).apiKey = .error err ∧
          err ≠ Error.QuotaExceededError)) ∧
    ((fetchVideosIteration apiKeys parseExample quotaAnswerWorld ⟨some ⟨"API_KEY1"⟩, 0⟩).2 =
        some ⟨some ⟨"API_KEY1"⟩, 0⟩ ∧
      Event.nilDereference ∉
        (fetchVideosIteration apiKeys parseExample quotaAnswerWorld ⟨some ⟨"API_KEY1"⟩, 0⟩).1 ∧
      Event.indexOutOfRange ∉
        (fetchVideosIteration apiKeys parseExample quotaAnswerWorld ⟨some ⟨"API_KEY1"⟩, 0⟩).1 ∧
      (∀ key, Event.newService key ∉
        (fetchVideosIteration apiKeys parseExample quotaAnswerWorld ⟨some ⟨"API_KEY1"⟩, 0⟩).1) ∧
      (∀ err, quotaAnswerWorld.doResult (⟨"API_KEY1"⟩ : Service).apiKey = .error err →
        (fetchVideosIteration apiKeys parseExample quotaAnswerWorld ⟨some ⟨"API_KEY1"⟩, 0⟩).1 =
          [Event.searchDo (⟨"API_KEY1"⟩ : Service).apiKey "", Event.logPrintln,
            Event.sleep 10])) :=
  ⟨Or.inr ⟨Error.googleapi 403 "quotaExceeded", rfl, by decide⟩,
    fetchVideosIteration_no_panic apiKeys parseExample quotaAnswerWorld ⟨"API_KEY1"⟩ 0
      (Or.inr ⟨Error.googleapi 403 "quotaExceeded", rfl, by decide⟩)⟩

/-- C6: one rotation step takes a position `i` of the pool to
`(i+1) mod len(apiKeys)`, and `len(apiKeys)` steps take it back to `i`, hence to
the same credential. -/
theorem rotate_full_cycle (keys : List String) (i : Nat) (hi : i < keys.length) :
    rotate keys.length i = (i + 1) % keys.length ∧
      (rotate keys.length)^[keys.length] i = i ∧
      keys.get? ((rotate keys.length)^[keys.length] i) = keys.get? i := by
  have hback : (rotate keys.length)^[keys.length] i = i := by
    have h := rotate_iterate keys.length (by omega) keys.length i
    rw [Nat.mod_eq_of_lt hi] at h
    rw [h, Nat.add_mod_right, Nat.mod_eq_of_lt hi]
  exact ⟨rotate_eq_mod _ _ hi, hback, by rw [hback]⟩

/-- Witness for C6: the pool of `main.go`, from position 1. -/
theorem rotate_full_cycle_witness :
    1 < apiKeys.length ∧
      rotate apiKeys.length 1 = (1 + 1) % apiKeys.length ∧
      (rotate apiKeys.length)^[apiKeys.length] 1 = 1 ∧
      apiKeys.get? ((rotate apiKeys.length)^[apiKeys.length] 1) = apiKeys.get? 1 :=
  ⟨by decide, rotate_full_cycle apiKeys 1 (by decide)⟩

end YoutubeAPI

/-! ## Lemmas on the store -/

namespace YoutubeAPI

/-- Characters without a pattern meaning read as themselves. -/
theorem likeTokens_plain (cs rest : List Char)
    (h : ∀ c ∈ cs, isLikeSpecial c = false) :
    likeTokens false (cs ++ rest) = cs.map Tok.literal ++ likeTokens false rest := by
  induction cs with
  | nil => rfl
  | cons c cs ih =>
    have hc := h c (List.mem_cons_self c cs)
    simp only [isLikeSpecial, Bool.or_eq_false_iff, decide_eq_false_iff_not] at hc
    have ih2 := ih fun d hd => h d (List.mem_cons_of_mem c hd)
    simp [likeTokens, hc.1.1, hc.1.2, hc.2, ih2]

/-- How the pattern `"%" + p + "%"` reads when `p` has no character with a
pattern meaning. -/
theorem likeTokens_pattern (p : String) (h : ∀ c ∈ p.data, isLikeSpecial c = false) :
    likeTokens false ("%" ++ p ++ "%").data =
      Tok.anySequence :: (p.data.map Tok.literal ++ [Tok.anySequence]) := by
  have h1 : ("%" ++ p ++ "%").data = '%' :: (p.data ++ ['%']) := by
    simp [String.data_append]
  rw [h1]
  have h2 : likeTokens false ('%' :: (p.data ++ ['%'])) =
      Tok.anySequence :: likeTokens false (p.data ++ ['%']) := by
    simp [likeTokens]
  rw [h2, likeTokens_plain p.data ['%'] h]
  simp [likeTokens]

/-- A run of literals followed by `%` matches the texts that start with the run,
without regard to case. -/
theorem matchTokens_literals (cs u : List Char) :
    matchTokens (cs.map Tok.literal ++ [Tok.anySequence]) u = true ↔
      cs.map foldCase <+: u.map foldCase := by
  induction cs generalizing u with
  | nil =>
    simp only [List.map_nil, List.nil_append, matchTokens, List.any_eq_true, List.nil_prefix,
      iff_true]
    exact ⟨[], (List.mem_tails _ _).2 List.nil_suffix, rfl⟩
  | cons c cs ih =>
    cases u with
    | nil => simp [matchTokens]
    | cons d rest =>
      simp [matchTokens, ih rest]

/-- Some tail of the text starts with `p` exactly when `p` is a run inside the
text. -/
theorem any_tails_iff (p : List Char) (t : List Char) :
    (t.tails.any fun u => decide (p <+: u.map foldCase)) = true ↔ p <:+: t.map foldCase := by
  induction t with
  | nil => simp
  | cons d r ih =>
    rw [List.tails_cons, List.any_cons, Bool.or_eq_true, ih, List.map_cons,
      List.infix_cons_iff]
    simp

/-- For a parameter without a character with a pattern meaning, `ILIKE` with
the pattern of `handleSearch` is case-insensitive substring containment. -/
theorem ilike_iff_contains (text p : String) (h : ∀ c ∈ p.data, isLikeSpecial c = false) :
    ilike text ("%" ++ p ++ "%") = true ↔ containsIgnoreCase p text := by
  unfold ilike containsIgnoreCase
  rw [likeTokens_pattern p h, matchTokens, ← any_tails_iff]
  congr! 2
  funext u
  rw [Bool.eq_iff_iff, matchTokens_literals]
  simp

end YoutubeAPI

/-! ## The claims on `handleSearch` -/

namespace YoutubeAPI

/-- C7: `handleSearch` responds with status 400 if and only if the `title` and the
`description` parameter are both absent or empty (`Get` gives the empty string
for both), and then it sends no query to the store; in every other case it
sends one. -/
theorem handleSearch_bad_request_iff (formatRFC3339 : Time → String)
    (dbQuery : Query → QueryResult) (r : Request) :
    ((handleSearch formatRFC3339 dbQuery r).1.status = 400 ↔
      (Get r.query "title" = "" ∧ Get r.query "description" = "")) ∧
    ((handleSearch formatRFC3339 dbQuery r).1.status = 400 ∧
        (handleSearch formatRFC3339 dbQuery r).2 = [] ∨
      (handleSearch formatRFC3339 dbQuery r).1.status ≠ 400 ∧
        (handleSearch formatRFC3339 dbQuery r).2.length = 1) := by
  unfold handleSearch
  by_cases hboth : Get r.query "title" = "" ∧ Get r.query "description" = ""
  · simp [hboth, httpError]
  · simp only [hboth, if_false, iff_false]
    split
    · simp [httpError]
    · split <;> simp [httpError]

/-- C8 (the code departs from it): for a store query that returns one row,
`handleSearch` responds with an array of one object without members, since no
field of `video` is exported; for a store query that returns no row, the body is
`null` and not the empty array. -/
theorem handleSearch_body_without_fields (formatRFC3339 : Time → String) (v : video) :
    (handleSearch formatRFC3339 (fun _ => .rows { scans := [.ok v], err := false })
        (titleRequest "abc")).1.body = .json (.array [.object []]) ∧
    (handleSearch formatRFC3339 (fun _ => .rows { scans := [], err := false })
        (titleRequest "abc")).1.body = .json .null ∧
    (handleSearch formatRFC3339 (fun _ => .rows { scans := [], err := false })
        (titleRequest "abc")).1.status = 200 :=
  ⟨rfl, rfl, rfl⟩

/-- C9, as stated, fails: for the title parameter `a_c` the query selects the row
with the title `abc`, which does not contain `a_c`. -/
theorem handleSearch_underscore_is_wildcard :
    (handleSearch (fun _ => "") (queryTable [abcVideo]) (titleRequest "a_c")).2 =
        [Query.titleOnly "%a_c%"] ∧
      abcVideo ∈ selectRows [abcVideo] (Query.titleOnly "%a_c%") ∧
      ¬ containsIgnoreCase "a_c" abcVideo.title := by
  decide

/-- C9, amended: when neither parameter contains `%`, `_` or the backslash,
and at least one is not empty, `handleSearch` sends one query, and the rows it
selects from any table are exactly the rows whose title contains the title
parameter (when not empty) and whose description contains the description
parameter (when not empty), without regard to case. -/
theorem handleSearch_query_selects_wanted (formatRFC3339 : Time → String)
    (dbQuery : Query → QueryResult) (r : Request) (table : List video)
    (hsome : ¬ (Get r.query "title" = "" ∧ Get r.query "description" = ""))
    (htitle : ∀ c ∈ (Get r.query "title").data, isLikeSpecial c = false)
    (hdescription : ∀ c ∈ (Get r.query "description").data, isLikeSpecial c = false) :
    ∃ q, (handleSearch formatRFC3339 dbQuery r).2 = [q] ∧
      (selectRows table q).Perm
        (table.filter (wanted (Get r.query "title") (Get r.query "description"))) := by
  have hsel : ∀ q : Query,
      (∀ v, whereClause q v = wanted (Get r.query "title") (Get r.query "description") v) →
      (selectRows table q).Perm
        (table.filter (wanted (Get r.query "title") (Get r.query "description"))) := by
    intro q hq
    unfold selectRows
    have hfun : whereClause q = wanted (Get r.query "title") (Get r.query "description") :=
      funext hq
    rw [hfun]
    exact List.perm_insertionSort _ _
  have hq : ∀ q, (handleSearch formatRFC3339 dbQuery r).2 = [q] ↔
      q = (if Get r.query "title" ≠ "" ∧ Get r.query "description" ≠ "" then
          Query.titleAndDescription ("%" ++ Get r.query "title" ++ "%")
            ("%" ++ Get r.query "description" ++ "%")
        else if Get r.query "title" ≠ "" then
          Query.titleOnly ("%" ++ Get r.query "title" ++ "%")
        else
          Query.descriptionOnly ("%" ++ Get r.query "description" ++ "%")) := by
    intro q
    unfold handleSearch
    simp only [hsome, if_false]
    split
    · simp [eq_comm]
    · split <;> simp [eq_comm]
  refine ⟨_, (hq _).2 rfl, hsel _ ?_⟩
  intro v
  by_cases ht : Get r.query "title" = ""
  · have hd : Get r.query "description" ≠ "" := fun hd => hsome ⟨ht, hd⟩
    rw [Bool.eq_iff_iff]
    simp [ht, hd, whereClause, wanted, ilike_iff_contains _ _ hdescription]
  · by_cases hd : Get r.query "description" = ""
    · rw [Bool.eq_iff_iff]
      simp [ht, hd, whereClause, wanted, ilike_iff_contains _ _ htitle]
    · rw [Bool.eq_iff_iff]
      simp [ht, hd, whereClause, wanted, ilike_iff_contains _ _ htitle,
        ilike_iff_contains _ _ hdescription]

/-- Witness for C9, amended: the title parameter `foot`, on a table of two rows. -/
theorem handleSearch_query_selects_wanted_witness :
    (¬ (Get (titleRequest "foot").query "title" = "" ∧
          Get (titleRequest "foot").query "description" = "") ∧
      (∀ c ∈ (Get (titleRequest "foot").query "title").data, isLikeSpecial c = false) ∧
      (∀ c ∈ (Get (titleRequest "foot").query "description").data,
        isLikeSpecial c = false)) ∧
    ∃ q, (handleSearch (fun _ => "") (queryTable [abcVideo, footballVideo])
          (titleRequest "foot")).2 = [q] ∧
      (selectRows [abcVideo, footballVideo] q).Perm
        ([abcVideo, footballVideo].filter
          (wanted (Get (titleRequest "foot").query "title")
            (Get (titleRequest "foot").query "description"))) :=
  ⟨⟨by decide, by decide, by decide⟩,
    handleSearch_query_selects_wanted (fun _ => "") (queryTable [abcVideo, footballVideo])
      (titleRequest "foot") [abcVideo, footballVideo] (by decide) (by decide) (by decide)⟩

/-- C10 (the code departs from it): when the row iteration ends early because
of an error, after one row, `handleSearch` responds with status 200 and the
list built from that one row, not with status 500. -/
theorem handleSearch_iteration_error_is_200 (formatRFC3339 : Time → String) (v : video) :
    (handleSearch formatRFC3339 (fun _ => .rows { scans := [.ok v], err := true })
        (titleRequest "abc")).1.status = 200 ∧
    (handleSearch formatRFC3339 (fun _ => .rows { scans := [.ok v], err := true })
        (titleRequest "abc")).1.body = .json (.array [.object []]) :=
  ⟨rfl, rfl⟩

end YoutubeAPI
